import Mathlib

/-!
# Verification of the Ricart-Agrawala mutual-exclusion client

A shallow embedding of `smart_client.py` (class `SmartClient`): the per-node
coordinator state, the Lamport clock operations, the two inbound RPC handlers
(`RequestAccess`, `ReleaseAccess`), the outbound request fan-out, and the
critical-section acquire/release operations.

Modelling conventions:
- Machine integers are `Nat` (Python ints are unbounded; all protocol values
  here are non-negative). Port arithmetic in `send_grant_to_client` is done
  over `Int` because Python evaluates `50052 + (client_id - 1)` over signed
  integers.
- Each lock-protected region of the Python code becomes one atomic step.
  Cross-thread interleavings (inbound RPC handlers firing while the outbound
  driver waits for replies) are modelled by an explicit event list folded over
  the node state.
- gRPC transport outcomes (a response, or an `RpcError`) are input data:
  the code's `except grpc.RpcError` branch is the `rpcError` case.
-/

namespace SmartClient

/-- Wire message of the `RequestAccess` RPC (`printing_pb2.AccessRequest`). -/
structure AccessRequest where
  client_id : Nat
  lamport_timestamp : Nat
  request_number : Nat
deriving Repr, DecidableEq

/-- Wire message answering `RequestAccess` (`printing_pb2.AccessResponse`). -/
structure AccessResponse where
  access_granted : Bool
  lamport_timestamp : Nat
deriving Repr, DecidableEq

/-- Wire message of the `ReleaseAccess` RPC (`printing_pb2.AccessRelease`). -/
structure AccessRelease where
  client_id : Nat
  lamport_timestamp : Nat
  request_number : Nat
deriving Repr, DecidableEq

/-- The empty reply of `ReleaseAccess` (`printing_pb2.EmptyResponse`). -/
structure EmptyResponse where
deriving Repr, DecidableEq

/-- The mutable per-node state of `SmartClient.__init__`, together with the
immutable identity fields (`client_id`, `port`, `configured_peers`). -/
structure NodeState where
  client_id : Nat
  port : Nat
  configured_peers : List Nat
  other_clients_ports : List Nat
  lamport_clock : Nat
  requesting_cs : Bool
  in_cs : Bool
  request_timestamp : Nat
  request_number : Nat
  replies_received : Nat
  deferred_replies : List Nat
deriving Repr, DecidableEq

/-- Insert into a strictly sorted list, skipping duplicates. -/
def insertSortedNoDup (x : Nat) : List Nat → List Nat
  | [] => [x]
  | y :: ys =>
      if x < y then x :: y :: ys
      else if x = y then y :: ys
      else y :: insertSortedNoDup x ys

/-- Python's `sorted(set(l))`: the elements of `l`, deduplicated, ascending. -/
def sortedSet (l : List Nat) : List Nat :=
  l.foldr insertSortedNoDup []

/-- Constructor `SmartClient.__init__(client_id, port, other_clients_ports)`:
`configured_peers = [p for p in sorted(set(other_clients_ports)) if p != port]`,
`other_clients_ports` starts as a copy of it, clock 0, all flags down. -/
def initClient (client_id port : Nat) (other_clients_ports : List Nat) : NodeState :=
  let peers := (sortedSet other_clients_ports).filter (· ≠ port)
  { client_id := client_id
    port := port
    configured_peers := peers
    other_clients_ports := peers
    lamport_clock := 0
    requesting_cs := false
    in_cs := false
    request_timestamp := 0
    request_number := 0
    replies_received := 0
    deferred_replies := [] }

/-- Method `SmartClient.increment_clock`: under `clock_lock`, `lamport_clock += 1`,
returning the new value. -/
def increment_clock (s : NodeState) : NodeState × Nat :=
  let c := s.lamport_clock + 1
  ({ s with lamport_clock := c }, c)

/-- Method `SmartClient.update_clock(received_timestamp)`: under `clock_lock`,
`lamport_clock = max(lamport_clock, received_timestamp) + 1`, returning the
new value. -/
def update_clock (s : NodeState) (received_timestamp : Nat) : NodeState × Nat :=
  let c := max s.lamport_clock received_timestamp + 1
  ({ s with lamport_clock := c }, c)

/-- Python's strict lexicographic comparison on pairs of ints:
`(a1, a2) < (b1, b2)`. -/
def pyPairLt (a b : Nat × Nat) : Bool :=
  a.1 < b.1 || (a.1 = b.1 && a.2 < b.2)

/-- Handler `SmartClient.RequestAccess(request, context)` (inbound RPC):
update the clock with the received timestamp; under `cs_lock`, grant
immediately when neither requesting nor in the critical section; otherwise
compare `(request_timestamp, client_id)` with
`(request.lamport_timestamp, request.client_id)` — when the local pair is
strictly smaller, append the requester id to `deferred_replies` and answer
`access_granted=False`, else answer `access_granted=True`. -/
def RequestAccess (s : NodeState) (request : AccessRequest) :
    NodeState × AccessResponse :=
  let p := update_clock s request.lamport_timestamp
  let s1 := p.1
  let current_clock := p.2
  if !s1.requesting_cs && !s1.in_cs then
    (s1, { access_granted := true, lamport_timestamp := current_clock })
  else
    let our_priority := (s1.request_timestamp, s1.client_id)
    let their_priority := (request.lamport_timestamp, request.client_id)
    if pyPairLt our_priority their_priority then
      ({ s1 with deferred_replies := s1.deferred_replies ++ [request.client_id] },
       { access_granted := false, lamport_timestamp := current_clock })
    else
      (s1, { access_granted := true, lamport_timestamp := current_clock })

/-- Handler `SmartClient.ReleaseAccess(request, context)` (inbound RPC):
update the clock with the received timestamp, then under `reply_lock`
`replies_received += 1`; always returns `EmptyResponse()`. -/
def ReleaseAccess (s : NodeState) (request : AccessRelease) :
    NodeState × EmptyResponse :=
  let s1 := (update_clock s request.lamport_timestamp).1
  ({ s1 with replies_received := s1.replies_received + 1 }, {})

/-- Outcome of one outbound gRPC call as seen by the caller: either the
peer's response arrived, or the stub raised `grpc.RpcError`. -/
inductive SendOutcome where
  | response (resp : AccessResponse)
  | rpcError
deriving Repr, DecidableEq

/-- Method `SmartClient.send_request_to_client(port, timestamp)`: on a response,
update the clock with the response timestamp and, only when
`access_granted` is true, `replies_received += 1` under `reply_lock`;
on `grpc.RpcError`, count the peer as a grant (`replies_received += 1`)
without touching the clock. -/
def send_request_to_client (s : NodeState) (outcome : SendOutcome) : NodeState :=
  match outcome with
  | .response resp =>
      let s1 := (update_clock s resp.lamport_timestamp).1
      if resp.access_granted then
        { s1 with replies_received := s1.replies_received + 1 }
      else
        s1
  | .rpcError =>
      { s with replies_received := s.replies_received + 1 }

/-- Method `SmartClient.refresh_active_peers(timeout)`: probe every configured peer
and keep the reachable ones as `other_clients_ports`. Reachability is input
data (`reachable`), the probe itself being network I/O. -/
def refresh_active_peers (s : NodeState) (reachable : Nat → Bool) : NodeState :=
  { s with other_clients_ports := s.configured_peers.filter reachable }

/-- The success condition polled by `SmartClient.wait_for_replies`:
`replies_received >= len(other_clients_ports)`. -/
def wait_for_replies (s : NodeState) : Bool :=
  s.other_clients_ports.length ≤ s.replies_received

/-- One concurrent event hitting the node while `request_critical_section`
sends requests and polls `wait_for_replies`: completion of one outbound
`RequestAccess` call, an inbound `ReleaseAccess`, or an inbound
`RequestAccess` served by the listener thread pool. -/
inductive AttemptEvent where
  | completion (outcome : SendOutcome)
  | release (r : AccessRelease)
  | inboundRequest (r : AccessRequest)
deriving Repr, DecidableEq

/-- Effect of one `AttemptEvent` on the node state. -/
def attempt_step (s : NodeState) (e : AttemptEvent) : NodeState :=
  match e with
  | .completion outcome => send_request_to_client s outcome
  | .release r => (ReleaseAccess s r).1
  | .inboundRequest r => (RequestAccess s r).1

/-- Method `SmartClient.request_critical_section()`: bump `request_number`, tick the
clock, set `requesting_cs`/`request_timestamp`/`replies_received` under
`cs_lock`, refresh the active peer list; with no active peers enter the
critical section at once; otherwise send one `RequestAccess` per active peer
and poll `wait_for_replies` until success or the 60s timeout. `events` lists
the call completions and inbound RPCs processed before the wait resolves;
the result carries the success flag and the requests actually sent. -/
def request_critical_section (s : NodeState) (reachable : Nat → Bool)
    (events : List AttemptEvent) :
    NodeState × Bool × List (Nat × AccessRequest) :=
  let s0 := { s with request_number := s.request_number + 1 }
  let p := increment_clock s0
  let s1 := p.1
  let current_ts := p.2
  let s2 := { s1 with
    requesting_cs := true
    request_timestamp := current_ts
    replies_received := 0 }
  let s3 := refresh_active_peers s2 reachable
  if s3.other_clients_ports.isEmpty then
    ({ s3 with requesting_cs := false, in_cs := true }, true, [])
  else
    let req : AccessRequest :=
      { client_id := s3.client_id
        lamport_timestamp := current_ts
        request_number := s3.request_number }
    let sent := s3.other_clients_ports.map (fun p => (p, req))
    let s4 := events.foldl attempt_step s3
    if wait_for_replies s4 then
      ({ s4 with requesting_cs := false, in_cs := true }, true, sent)
    else
      ({ s4 with requesting_cs := false }, false, sent)

/-- Method `SmartClient.send_grant_to_client(client_id, timestamp)`: derive the
target port as `50052 + (client_id - 1)`; when it equals the node's own port,
return without sending; otherwise send one `ReleaseAccess` message carrying
the node's own id, the given timestamp and the current `request_number`.
Delivery failure (`grpc.RpcError`) is caught and changes no state, so the
result is just the attempted message, if any. -/
def send_grant_to_client (s : NodeState) (client_id timestamp : Nat) :
    Option (Int × AccessRelease) :=
  let target_port : Int := 50052 + ((client_id : Int) - 1)
  if target_port = (s.port : Int) then
    none
  else
    some (target_port,
      { client_id := s.client_id
        lamport_timestamp := timestamp
        request_number := s.request_number })

/-- Method `SmartClient.release_critical_section()`: tick the clock; under
`cs_lock` set `in_cs = False`, copy `deferred_replies` into a local list and
clear the field. Returns the new state, the release timestamp and the
drained list (the loop over the drained ids is `release_notifications`). -/
def release_critical_section (s : NodeState) : NodeState × Nat × List Nat :=
  let p := increment_clock s
  let s1 := p.1
  let current_ts := p.2
  let deferred := s1.deferred_replies
  let s2 := { s1 with in_cs := false, deferred_replies := [] }
  (s2, current_ts, deferred)

/-- The notification loop of `release_critical_section`: one
`send_grant_to_client` per drained id, collecting the messages actually put
on the wire (delivery failures change nothing locally). -/
def release_notifications (s : NodeState) (timestamp : Nat)
    (deferred : List Nat) : List (Int × AccessRelease) :=
  deferred.filterMap (fun cid => send_grant_to_client s cid timestamp)


/-! ## Derived notions used by the statements -/

/-- A tick or observe call against the Lamport clock of one node. -/
inductive ClockEvent where
  | tick
  | observe (received : Nat)
deriving Repr, DecidableEq

/-- The sequence of clock values returned by a sequence of
`increment_clock` / `update_clock` calls on one node. -/
def clock_returns (s : NodeState) : List ClockEvent → List Nat
  | [] => []
  | ClockEvent.tick :: es =>
      (increment_clock s).2 :: clock_returns (increment_clock s).1 es
  | ClockEvent.observe r :: es =>
      (update_clock s r).2 :: clock_returns (update_clock s r).1 es

/-- Number of outbound-call completions in an event list. -/
def completions_count (events : List AttemptEvent) : Nat :=
  (events.filter fun e =>
    match e with
    | .completion _ => true
    | _ => false).length

/-- Number of inbound `ReleaseAccess` notifications in an event list. -/
def releases_count (events : List AttemptEvent) : Nat :=
  (events.filter fun e =>
    match e with
    | .release _ => true
    | _ => false).length

/-! ## Helper lemmas -/

theorem attempt_step_flags (s : NodeState) (e : AttemptEvent) :
    (attempt_step s e).requesting_cs = s.requesting_cs ∧
    (attempt_step s e).in_cs = s.in_cs ∧
    (attempt_step s e).other_clients_ports = s.other_clients_ports ∧
    (attempt_step s e).configured_peers = s.configured_peers := by
  cases e with
  | completion o =>
      cases o with
      | response r =>
          by_cases h : r.access_granted <;>
            simp [attempt_step, send_request_to_client, update_clock, h]
      | rpcError => simp [attempt_step, send_request_to_client]
  | release r => simp [attempt_step, ReleaseAccess, update_clock]
  | inboundRequest r =>
      simp only [attempt_step, RequestAccess, update_clock]
      split <;> [skip; split] <;> simp

theorem foldl_attempt_step_flags (events : List AttemptEvent) :
    ∀ s : NodeState,
      (events.foldl attempt_step s).requesting_cs = s.requesting_cs ∧
      (events.foldl attempt_step s).in_cs = s.in_cs ∧
      (events.foldl attempt_step s).other_clients_ports = s.other_clients_ports ∧
      (events.foldl attempt_step s).configured_peers = s.configured_peers := by
  induction events with
  | nil => intro s; simp
  | cons e es ih =>
      intro s
      have h := attempt_step_flags s e
      have h' := ih (attempt_step s e)
      simp only [List.foldl_cons]
      exact ⟨h'.1.trans h.1, h'.2.1.trans h.2.1,
        h'.2.2.1.trans h.2.2.1, h'.2.2.2.trans h.2.2.2⟩

theorem foldl_attempt_step_in_cs (events : List AttemptEvent) (s : NodeState) :
    (events.foldl attempt_step s).in_cs = s.in_cs :=
  (foldl_attempt_step_flags events s).2.1

theorem foldl_attempt_step_ports (events : List AttemptEvent) (s : NodeState) :
    (events.foldl attempt_step s).other_clients_ports = s.other_clients_ports :=
  (foldl_attempt_step_flags events s).2.2.1

theorem attempt_step_replies_le (s : NodeState) (e : AttemptEvent) :
    (attempt_step s e).replies_received ≤ s.replies_received +
      (match e with
       | .completion _ => 1
       | .release _ => 1
       | .inboundRequest _ => 0) := by
  cases e with
  | completion o =>
      cases o with
      | response r =>
          by_cases h : r.access_granted <;>
            simp [attempt_step, send_request_to_client, update_clock, h]
      | rpcError => simp [attempt_step, send_request_to_client]
  | release r => simp [attempt_step, ReleaseAccess, update_clock]
  | inboundRequest r =>
      simp only [attempt_step, RequestAccess, update_clock]
      split <;> [skip; split] <;> simp

theorem foldl_attempt_step_replies_le (events : List AttemptEvent) :
    ∀ s : NodeState,
      (events.foldl attempt_step s).replies_received ≤
        s.replies_received + completions_count events + releases_count events := by
  induction events with
  | nil => intro s; simp [completions_count, releases_count]
  | cons e es ih =>
      intro s
      have h1 := attempt_step_replies_le s e
      have h2 := ih (attempt_step s e)
      simp only [List.foldl_cons]
      cases e <;>
        simp only [completions_count, releases_count, List.filter_cons] at h1 h2 ⊢ <;>
        simp at h1 h2 ⊢ <;>
        omega

theorem clock_returns_chain (es : List ClockEvent) :
    ∀ s : NodeState,
      List.Chain (· < ·) s.lamport_clock (clock_returns s es) := by
  induction es with
  | nil => intro s; exact List.Chain.nil
  | cons e es ih =>
      intro s
      cases e with
      | tick =>
          refine List.Chain.cons ?_ ?_
          · simp [increment_clock]
          · simpa [increment_clock] using ih (increment_clock s).1
      | observe r =>
          refine List.Chain.cons ?_ ?_
          · simp [update_clock]
            omega
          · simpa [update_clock] using ih (update_clock s r).1

/-! ## Claim theorems -/

/-- C5: the logical clock contract. `increment_clock` sets the local clock to
`local + 1` and returns the new value; `update_clock` sets it to
`max(local, received) + 1` and returns the new value; consequently, along any
sequence of tick/observe calls on one node, the successive returned clock
values are strictly increasing. -/
theorem c5_clock_contract :
    (∀ s : NodeState,
      increment_clock s =
        ({ s with lamport_clock := s.lamport_clock + 1 }, s.lamport_clock + 1)) ∧
    (∀ (s : NodeState) (received : Nat),
      update_clock s received =
        ({ s with lamport_clock := max s.lamport_clock received + 1 },
         max s.lamport_clock received + 1)) ∧
    (∀ (s : NodeState) (es : List ClockEvent),
      (clock_returns s es).Chain' (· < ·)) := by
  refine ⟨fun s => rfl, fun s received => rfl, fun s es => ?_⟩
  have h := clock_returns_chain es s
  cases hl : clock_returns s es with
  | nil => simp
  | cons a l =>
      rw [hl] at h
      exact (List.chain_cons.mp h).2

/-- C7: a transport error (`grpc.RpcError`) on an outbound `RequestAccess`
call is counted exactly like a granted reply: `replies_received` is
incremented and nothing else in the node state changes, so the attempt
proceeds; in particular the counter effect is identical to that of a
response with `access_granted = true`. -/
theorem c7_transport_error_implicit_grant :
    ∀ (s : NodeState),
      send_request_to_client s SendOutcome.rpcError =
        { s with replies_received := s.replies_received + 1 } ∧
      ∀ ts : Nat,
        (send_request_to_client s
            (SendOutcome.response
              { access_granted := true, lamport_timestamp := ts })).replies_received =
          s.replies_received + 1 := by
  intro s
  exact ⟨rfl, fun ts => by simp [send_request_to_client, update_clock]⟩

/-- C10: the `ReleaseAccess` handler, in every local state (including IDLE),
first folds the received timestamp into the clock, then unconditionally
increments `replies_received`, leaving every other field unchanged and
returning the empty response; the result does not depend on the sender's
`client_id` or `request_number`. -/
theorem c10_release_access_unconditional :
    ∀ (s : NodeState) (request : AccessRelease),
      ReleaseAccess s request =
        ({ s with
            lamport_clock := max s.lamport_clock request.lamport_timestamp + 1,
            replies_received := s.replies_received + 1 },
         {}) ∧
      ∀ (senderId reqNumber : Nat),
        ReleaseAccess s
          { client_id := senderId,
            lamport_timestamp := request.lamport_timestamp,
            request_number := reqNumber } =
        ReleaseAccess s request := by
  intro s request
  exact ⟨rfl, fun senderId reqNumber => rfl⟩

/-- C2: decision rule of the `RequestAccess` handler. When the receiver is
neither requesting nor inside the critical section it grants immediately and
defers nothing; otherwise it compares the raw local pair
`(request_timestamp, client_id)` with the raw incoming pair
`(timestamp, requesterId)` under strict lexicographic order: a strictly
smaller local pair appends the requester to `deferred_replies` and answers
`granted = false`, any other outcome answers `granted = true`. With equal
timestamps and distinct ids, the requester is granted exactly when its id is
the smaller one, and no timestamp is adjusted: the handler leaves
`request_timestamp` (and all state flags) unchanged and compares the
received timestamp as-is. -/
theorem c2_request_access_decision (s : NodeState) (request : AccessRequest) :
    (s.requesting_cs = false ∧ s.in_cs = false →
      (RequestAccess s request).2.access_granted = true ∧
      (RequestAccess s request).1.deferred_replies = s.deferred_replies) ∧
    (s.requesting_cs = true ∨ s.in_cs = true →
      (if pyPairLt (s.request_timestamp, s.client_id)
          (request.lamport_timestamp, request.client_id) then
        (RequestAccess s request).2.access_granted = false ∧
        (RequestAccess s request).1.deferred_replies =
          s.deferred_replies ++ [request.client_id]
      else
        (RequestAccess s request).2.access_granted = true ∧
        (RequestAccess s request).1.deferred_replies = s.deferred_replies)) ∧
    (s.requesting_cs = true ∨ s.in_cs = true →
      request.lamport_timestamp = s.request_timestamp →
      request.client_id ≠ s.client_id →
      ((RequestAccess s request).2.access_granted = true ↔
        request.client_id < s.client_id)) ∧
    ((RequestAccess s request).1.requesting_cs = s.requesting_cs ∧
     (RequestAccess s request).1.in_cs = s.in_cs ∧
     (RequestAccess s request).1.request_timestamp = s.request_timestamp ∧
     (RequestAccess s request).2.lamport_timestamp =
       max s.lamport_clock request.lamport_timestamp + 1) := by
  refine ⟨?_, ?_, ?_, ?_⟩
  · rintro ⟨h1, h2⟩
    simp [RequestAccess, update_clock, h1, h2]
  · intro hbusy
    have hb : (!s.requesting_cs && !s.in_cs) = false := by
      rcases hbusy with h | h <;> simp [h]
    by_cases hlt : pyPairLt (s.request_timestamp, s.client_id)
        (request.lamport_timestamp, request.client_id) <;>
      simp [RequestAccess, update_clock, hb, hlt]
  · intro hbusy hts hid
    have hb : (!s.requesting_cs && !s.in_cs) = false := by
      rcases hbusy with h | h <;> simp [h]
    have hpair : pyPairLt (s.request_timestamp, s.client_id)
        (request.lamport_timestamp, request.client_id) =
        decide (s.client_id < request.client_id) := by
      simp [pyPairLt, hts]
    by_cases hlt : s.client_id < request.client_id <;>
      · simp only [RequestAccess, update_clock, hb, hpair, hlt]
        simp
        omega
  · simp only [RequestAccess, update_clock]
    split <;> [skip; split] <;> simp

/-- Witness for C2: a busy node (id 1, requesting with timestamp 2) receives
a request carrying the identical timestamp 2 from node id 2; the theorem
yields `granted = false` — the smaller id wins the tie. -/
theorem c2_request_access_decision_witness :
    (({ initClient 1 50052 [50053] with
        requesting_cs := true, request_timestamp := 2 } : NodeState).requesting_cs = true ∨
      ({ initClient 1 50052 [50053] with
        requesting_cs := true, request_timestamp := 2 } : NodeState).in_cs = true) ∧
    ((RequestAccess
        { initClient 1 50052 [50053] with
          requesting_cs := true, request_timestamp := 2 }
        { client_id := 2, lamport_timestamp := 2, request_number := 1 }).2.access_granted = true ↔
      (2 : Nat) < 1) :=
  ⟨Or.inl (by decide),
   (c2_request_access_decision
      { initClient 1 50052 [50053] with
        requesting_cs := true, request_timestamp := 2 }
      { client_id := 2, lamport_timestamp := 2, request_number := 1 }).2.2.1
     (Or.inl (by decide)) (by decide) (by decide)⟩

/-- C6: every completed call of `request_critical_section` leaves
`requesting_cs = false` — the node is never left in the REQUESTING state;
when the attempt starts outside the critical section and fails, the final
state is IDLE (`in_cs` still false); and the attempt fails exactly when the
grants collected fall short of the number of peers contacted, i.e. when the
wait timed out before all required grants arrived. -/
theorem c6_timeout_rolls_back_to_idle (s : NodeState) (reachable : Nat → Bool)
    (events : List AttemptEvent) (h : s.in_cs = false) :
    (request_critical_section s reachable events).1.requesting_cs = false ∧
    ((request_critical_section s reachable events).2.1 = false →
      (request_critical_section s reachable events).1.in_cs = false) ∧
    ((request_critical_section s reachable events).2.1 = false ↔
      (request_critical_section s reachable events).1.replies_received <
        (request_critical_section s reachable events).1.other_clients_ports.length) := by
  simp only [request_critical_section, refresh_active_peers, increment_clock,
    wait_for_replies]
  split
  · next hempty =>
      simp only [List.isEmpty_iff] at hempty
      simp [hempty]
  · next hempty =>
      split
      · next hwait =>
          refine ⟨rfl, by simp, ?_⟩
          simp only [decide_eq_true_eq] at hwait
          simp
          omega
      · next hwait =>
          simp only [decide_eq_true_eq] at hwait
          refine ⟨rfl, fun _ => ?_, by simp; omega⟩
          simpa [foldl_attempt_step_in_cs] using h

/-- Witness for C6: a fresh node (id 1) with one active peer whose reply is
deferred; the attempt times out with 0 of 1 grants, ends with
`requesting_cs = false`, `in_cs = false`, and reports failure. -/
theorem c6_timeout_rolls_back_to_idle_witness :
    (initClient 1 50052 [50053]).in_cs = false ∧
    ((request_critical_section (initClient 1 50052 [50053]) (fun _ => true)
        [AttemptEvent.completion (SendOutcome.response
          { access_granted := false, lamport_timestamp := 2 })]).1.requesting_cs = false ∧
     ((request_critical_section (initClient 1 50052 [50053]) (fun _ => true)
        [AttemptEvent.completion (SendOutcome.response
          { access_granted := false, lamport_timestamp := 2 })]).2.1 = false →
      (request_critical_section (initClient 1 50052 [50053]) (fun _ => true)
        [AttemptEvent.completion (SendOutcome.response
          { access_granted := false, lamport_timestamp := 2 })]).1.in_cs = false) ∧
     ((request_critical_section (initClient 1 50052 [50053]) (fun _ => true)
        [AttemptEvent.completion (SendOutcome.response
          { access_granted := false, lamport_timestamp := 2 })]).2.1 = false ↔
      (request_critical_section (initClient 1 50052 [50053]) (fun _ => true)
        [AttemptEvent.completion (SendOutcome.response
          { access_granted := false, lamport_timestamp := 2 })]).1.replies_received <
        (request_critical_section (initClient 1 50052 [50053]) (fun _ => true)
          [AttemptEvent.completion (SendOutcome.response
            { access_granted := false, lamport_timestamp := 2 })]).1.other_clients_ports.length)) :=
  ⟨by decide,
   c6_timeout_rolls_back_to_idle (initClient 1 50052 [50053]) (fun _ => true)
     [AttemptEvent.completion (SendOutcome.response
       { access_granted := false, lamport_timestamp := 2 })] (by decide)⟩

/-- C9: when the liveness probe finds zero reachable peers,
`request_critical_section` succeeds immediately — the result is `true`, the
final state has `in_cs = true` and `requesting_cs = false` — and the list of
`RequestAccess` messages put on the wire is empty. -/
theorem c9_zero_reachable_peers_immediate (s : NodeState) (reachable : Nat → Bool)
    (events : List AttemptEvent) (h : s.configured_peers.filter reachable = []) :
    (request_critical_section s reachable events).2.1 = true ∧
    (request_critical_section s reachable events).1.in_cs = true ∧
    (request_critical_section s reachable events).1.requesting_cs = false ∧
    (request_critical_section s reachable events).2.2 = [] := by
  simp [request_critical_section, refresh_active_peers, increment_clock, h]

/-- Witness for C9: node 1 configured with one peer that the probe reports
unreachable enters the critical section at once without sending anything. -/
theorem c9_zero_reachable_peers_immediate_witness :
    (initClient 1 50052 [50053]).configured_peers.filter (fun _ => false) = [] ∧
    ((request_critical_section (initClient 1 50052 [50053]) (fun _ => false)
        []).2.1 = true ∧
     (request_critical_section (initClient 1 50052 [50053]) (fun _ => false)
        []).1.in_cs = true ∧
     (request_critical_section (initClient 1 50052 [50053]) (fun _ => false)
        []).1.requesting_cs = false ∧
     (request_critical_section (initClient 1 50052 [50053]) (fun _ => false)
        []).2.2 = []) :=
  ⟨by decide,
   c9_zero_reachable_peers_immediate (initClient 1 50052 [50053]) (fun _ => false)
     [] (by decide)⟩

/-- C4 (amended): during one attempt, `replies_received` is bounded by the
number of peers contacted in that attempt plus the number of inbound
`ReleaseAccess` notifications processed since the attempt began, provided
each contacted peer completes at most once. (The unconditional bound by
peers contacted alone fails: the `ReleaseAccess` handler increments the
counter for every notification, including stale ones from an earlier
timed-out attempt.) -/
theorem c4_reply_counter_bound (s : NodeState) (reachable : Nat → Bool)
    (events : List AttemptEvent)
    (h : completions_count events ≤ (s.configured_peers.filter reachable).length) :
    (request_critical_section s reachable events).1.replies_received ≤
      (s.configured_peers.filter reachable).length + releases_count events := by
  simp only [request_critical_section, refresh_active_peers, increment_clock,
    wait_for_replies]
  split
  · simp
  · have hb := foldl_attempt_step_replies_le events
    split <;>
    · refine le_trans (hb _) ?_
      simp
      omega

/-- Witness for C4: node 1 contacts its single active peer, which grants,
and one `ReleaseAccess` notification arrives during the wait; one completion
is no more than one contacted peer, and the counter (2) respects the bound
1 + 1. -/
theorem c4_reply_counter_bound_witness :
    completions_count
        [AttemptEvent.completion (SendOutcome.response
          { access_granted := true, lamport_timestamp := 2 }),
         AttemptEvent.release
          { client_id := 2, lamport_timestamp := 7, request_number := 1 }] ≤
      ((initClient 1 50052 [50053]).configured_peers.filter (fun _ => true)).length ∧
    (request_critical_section (initClient 1 50052 [50053]) (fun _ => true)
        [AttemptEvent.completion (SendOutcome.response
          { access_granted := true, lamport_timestamp := 2 }),
         AttemptEvent.release
          { client_id := 2, lamport_timestamp := 7, request_number := 1 }]).1.replies_received ≤
      ((initClient 1 50052 [50053]).configured_peers.filter (fun _ => true)).length +
        releases_count
          [AttemptEvent.completion (SendOutcome.response
            { access_granted := true, lamport_timestamp := 2 }),
           AttemptEvent.release
            { client_id := 2, lamport_timestamp := 7, request_number := 1 }] :=
  ⟨by decide,
   c4_reply_counter_bound (initClient 1 50052 [50053]) (fun _ => true)
     [AttemptEvent.completion (SendOutcome.response
       { access_granted := true, lamport_timestamp := 2 }),
      AttemptEvent.release
       { client_id := 2, lamport_timestamp := 7, request_number := 1 }]
     (by decide)⟩

/-- Counterexample to C4 as stated: node 1 contacts exactly one peer, which
replies with a grant, and one `ReleaseAccess` notification (a stale grant
from an earlier attempt) is processed during the same wait; the counter
reaches 2, exceeding the single contacted peer. -/
theorem c4_counterexample_stale_release :
    ((request_critical_section (initClient 1 50052 [50053]) (fun _ => true)
        [AttemptEvent.completion (SendOutcome.response
          { access_granted := true, lamport_timestamp := 2 }),
         AttemptEvent.release
          { client_id := 2, lamport_timestamp := 7, request_number := 1 }]).2.2.length = 1) ∧
    ((request_critical_section (initClient 1 50052 [50053]) (fun _ => true)
        [AttemptEvent.completion (SendOutcome.response
          { access_granted := true, lamport_timestamp := 2 }),
         AttemptEvent.release
          { client_id := 2, lamport_timestamp := 7, request_number := 1 }]).1.replies_received = 2) ∧
    ¬ ((request_critical_section (initClient 1 50052 [50053]) (fun _ => true)
        [AttemptEvent.completion (SendOutcome.response
          { access_granted := true, lamport_timestamp := 2 }),
         AttemptEvent.release
          { client_id := 2, lamport_timestamp := 7, request_number := 1 }]).1.replies_received ≤
       ((initClient 1 50052 [50053]).configured_peers.filter (fun _ => true)).length) := by
  decide

theorem release_notifications_eq (s : NodeState) (timestamp : Nat) :
    ∀ deferred : List Nat,
      release_notifications s timestamp deferred =
        (deferred.filter fun cid =>
            decide (50052 + ((cid : Int) - 1) ≠ (s.port : Int))).map
          fun cid =>
            (50052 + ((cid : Int) - 1),
             { client_id := s.client_id, lamport_timestamp := timestamp,
               request_number := s.request_number }) := by
  intro deferred
  induction deferred with
  | nil => rfl
  | cons cid rest ih =>
      by_cases hp : 50052 + ((cid : Int) - 1) = (s.port : Int) <;>
        simp only [release_notifications, List.filterMap_cons,
          send_grant_to_client, List.filter_cons, hp] <;>
        simp [hp] <;>
        simpa [release_notifications] using ih

/-- C8 (amended): `release_critical_section` ticks the clock, leaves the
critical section, drains `deferred_replies` into the returned list and clears
the field in the same `cs_lock` block; the notification loop then sends
exactly one `ReleaseAccess` message per drained NodeId whose derived port
`50052 + (id - 1)` differs from the node's own port, and skips a drained id
whose derived port equals the node's own port; delivery failures change no
local state (the state result does not depend on delivery outcomes). -/
theorem c8_release_drains_and_notifies (s : NodeState) :
    (release_critical_section s).1.in_cs = false ∧
    (release_critical_section s).1.deferred_replies = [] ∧
    (release_critical_section s).2.2 = s.deferred_replies ∧
    (release_critical_section s).2.1 = s.lamport_clock + 1 ∧
    (release_critical_section s).1.lamport_clock = s.lamport_clock + 1 ∧
    (release_critical_section s).1.requesting_cs = s.requesting_cs ∧
    release_notifications (release_critical_section s).1
        (release_critical_section s).2.1 (release_critical_section s).2.2 =
      (s.deferred_replies.filter fun cid =>
          decide (50052 + ((cid : Int) - 1) ≠ (s.port : Int))).map
        fun cid =>
          (50052 + ((cid : Int) - 1),
           { client_id := s.client_id, lamport_timestamp := s.lamport_clock + 1,
             request_number := s.request_number }) := by
  refine ⟨rfl, rfl, rfl, rfl, rfl, rfl, ?_⟩
  exact release_notifications_eq (release_critical_section s).1
    (s.lamport_clock + 1) s.deferred_replies

/-- Node id 2 started on port 50052 with its single peer on port 6000. -/
def c8_node2_start : NodeState := initClient 2 50052 [6000]

/-- Attempt of node 2 during which the peer (node id 1, on port 6000, itself
requesting with timestamp 5) sends a request that node 2 defers, and node 2
collects the grant it needs and enters the critical section. -/
def c8_node2_attempt : NodeState × Bool × List (Nat × AccessRequest) :=
  request_critical_section c8_node2_start (fun _ => true)
    [AttemptEvent.inboundRequest
      { client_id := 1, lamport_timestamp := 5, request_number := 1 },
     AttemptEvent.completion (SendOutcome.response
      { access_granted := true, lamport_timestamp := 6 })]

/-- Release by node 2 of the critical section it holds. -/
def c8_node2_release : NodeState × Nat × List Nat :=
  release_critical_section c8_node2_attempt.1

/-- Counterexample to C8 as stated: node 2 (listening on port 50052) enters
the critical section having deferred exactly one request, from node id 1;
on release the drained list has length 1, yet zero notifications go out,
because the derived port `50052 + (1 - 1)` equals node 2's own port and
`send_grant_to_client` returns without sending. -/
theorem c8_counterexample_skipped_notification :
    c8_node2_attempt.1.in_cs = true ∧
    c8_node2_release.2.2 = [1] ∧
    release_notifications c8_node2_release.1 c8_node2_release.2.1
      c8_node2_release.2.2 = [] := by
  decide

/-- Node 1 of the C1 execution: id 1 on port 50052, peer on 50053. -/
def c1_node1_start : NodeState := initClient 1 50052 [50053]

/-- Node 2 of the C1 execution: id 2 on port 50053, peer on 50052. -/
def c1_node2_start : NodeState := initClient 2 50053 [50052]

/-- The request node 2 sends when it starts its attempt (timestamp 1,
request number 1). -/
def c1_node2_request : AccessRequest :=
  { client_id := 2, lamport_timestamp := 1, request_number := 1 }

/-- Node 1 handles node 2's request while idle. -/
def c1_node1_grants : NodeState × AccessResponse :=
  RequestAccess c1_node1_start c1_node2_request

/-- Node 2's attempt, completed by node 1's genuine response. -/
def c1_node2_attempt : NodeState × Bool × List (Nat × AccessRequest) :=
  request_critical_section c1_node2_start (fun _ => true)
    [AttemptEvent.completion (SendOutcome.response c1_node1_grants.2)]

/-- Node 1's attempt, issued while node 2 holds the critical section: the
outbound `RequestAccess` call to node 2 raises `grpc.RpcError` (node 2
unreachable or too slow to answer within the 10s call timeout) and is
counted as a grant. -/
def c1_node1_attempt : NodeState × Bool × List (Nat × AccessRequest) :=
  request_critical_section c1_node1_grants.1 (fun _ => true)
    [AttemptEvent.completion SendOutcome.rpcError]

/-- C1 fails on the code: in the two-node execution scripted above, node 2
enters the critical section with node 1's genuine grant, node 1 then
requests, its call to node 2 fails and is counted as a grant, and node 1
enters as well while node 2 (whose state no step has touched since) is still
inside — two distinct nodes with `in_cs = true` at the same instant. The
conjuncts check the execution is coherent: the message node 2 put on the
wire is exactly the one node 1 handled, and node 1 granted it. -/
theorem c1_code_bug_both_in_critical_section :
    c1_node2_attempt.2.2 = [(50052, c1_node2_request)] ∧
    c1_node1_grants.2.access_granted = true ∧
    c1_node2_attempt.2.1 = true ∧
    c1_node2_attempt.1.in_cs = true ∧
    c1_node1_attempt.2.1 = true ∧
    c1_node1_attempt.1.in_cs = true ∧
    c1_node1_attempt.1.client_id ≠ c1_node2_attempt.1.client_id := by
  decide

/-- Node of the C3 execution: id 2 on port 50053, peer on 50052. -/
def c3_node_start : NodeState := initClient 2 50053 [50052]

/-- A failed attempt of node 2: while it is requesting (timestamp 1), a
request from node id 3 with timestamp 5 arrives and is deferred; its own
contacted peer (node id 1, also requesting with timestamp 1, which wins the
tie against id 2) answers `access_granted=False`, so the round times out
with 0 of 1 grants. -/
def c3_failed_attempt : NodeState × Bool × List (Nat × AccessRequest) :=
  request_critical_section c3_node_start (fun _ => true)
    [AttemptEvent.inboundRequest
      { client_id := 3, lamport_timestamp := 5, request_number := 1 },
     AttemptEvent.completion (SendOutcome.response
      { access_granted := false, lamport_timestamp := 2 })]

/-- C3 fails on the code: after the timed-out attempt scripted above the
node is back in IDLE (`requesting_cs = false`, `in_cs = false`, the attempt
reported failure) while `deferred_replies = [3]` is non-empty — the failure
path of `request_critical_section` never clears the deferred list. -/
theorem c3_code_bug_idle_with_deferred :
    c3_failed_attempt.2.1 = false ∧
    c3_failed_attempt.1.requesting_cs = false ∧
    c3_failed_attempt.1.in_cs = false ∧
    c3_failed_attempt.1.deferred_replies = [3] := by
  decide

end SmartClient
